import Mathlib

/-!
Verification of the DITM options builder core: a shallow embedding of the
screening pipeline (src/ditm.py), the preset matcher (src/filter_matcher.py),
the JSON and SQLite recommendation trackers (src/recommendation_tracker.py,
src/recommendation_tracker_db.py) and their risk analytics, together with
theorems settling the specification claims.

Python floats are idealized as exact real numbers (`ℝ`) where the code computes
with them and as rationals (`ℚ`) in the store models; the float special cases
the code explicitly branches on (missing dict keys, NaN, `float('inf')`) are
modelled by dedicated constructors where the code tests for them.
-/

namespace DITM

/-- Standard normal CDF, the meaning of `scipy.stats.norm.cdf` as used by
`bs_call_delta` in src/ditm.py. -/
noncomputable def normCdf (x : ℝ) : ℝ :=
  ((ProbabilityTheory.gaussianReal 0 1) (Set.Iic x)).toReal

/-- Black-Scholes call delta, from src/ditm.py lines 128-132 (`bs_call_delta`). -/
noncomputable def bs_call_delta (S K T r sigma : ℝ) : ℝ :=
  if T ≤ 0 then (if S > K then 1.0 else 0.0)
  else normCdf ((Real.log (S / K) + (r + 0.5 * sigma ^ 2) * T) / (sigma * Real.sqrt T))

/-- Threshold constant from src/ditm.py line 29. -/
def MIN_DELTA : ℝ := 0.80

/-- Threshold constant from src/ditm.py line 30. -/
def MAX_DELTA : ℝ := 0.95

/-- Threshold constant from src/ditm.py line 31. -/
def MIN_INTRINSIC_PCT : ℝ := 0.85

/-- Threshold constant from src/ditm.py line 32. -/
def MIN_DTE : ℤ := 90

/-- Threshold constant from src/ditm.py line 33. -/
def MAX_IV : ℝ := 0.30

/-- Threshold constant from src/ditm.py line 34. -/
def MAX_SPREAD_PCT : ℝ := 0.02

/-- Threshold constant from src/ditm.py line 35. -/
def MIN_OI : ℝ := 500

/-- Threshold constant from src/ditm.py line 36. -/
def MAX_IMMEDIATE_LOSS_PCT : ℝ := 0.15

/-- Constant from src/ditm.py line 37. -/
def RISK_FREE_RATE : ℝ := 0.04

/-- A float-valued field of a Schwab contract record as the pipeline reads it:
absent from the dict, present but NaN, or an ordinary number. -/
inductive FloatVal where
  | missing
  | nan
  | val (x : ℝ)

/-- One contract row of the option chain for a fixed strike, as consumed by the
inner loop of `find_ditm_calls` (src/ditm.py lines 460-499). -/
structure RawContract where
  strike : ℝ
  bid : ℝ
  ask : ℝ
  volatility : FloatVal
  openInterest : ℝ
  delta : FloatVal

/-- One expiration bucket of `callExpDateMap`: its day count to expiration and
its contracts. The source computes `T = days/365.0` and `dte = int(T*365)`; in
exact arithmetic both reduce to the day count, which we take as given. -/
structure ExpGroup where
  dte : ℤ
  contracts : List RawContract

/-- IV normalization of src/ditm.py lines 472 and 493-495: a missing
`volatility` key defaults to `0.30`; a reported value `> 1` is divided by 100;
a NaN or zero result is replaced by `0.30`. -/
noncomputable def normalizeSigma (v : FloatVal) : ℝ :=
  match v with
  | .missing => 0.30
  | .nan => 0.30
  | .val x =>
      let s := if x > 1 then x / 100 else x
      if s = 0 then 0.30 else s

/-- Delta resolution of src/ditm.py lines 497-499: use the reported delta when
present and not NaN, otherwise fall back to `bs_call_delta`. -/
noncomputable def resolveDelta (S K T sigma : ℝ) (d : FloatVal) : ℝ :=
  match d with
  | .val x => x
  | .missing => bs_call_delta S K T RISK_FREE_RATE sigma
  | .nan => bs_call_delta S K T RISK_FREE_RATE sigma

/-- One output row of `find_ditm_calls` (src/ditm.py lines 527-543). -/
structure Row where
  strike : ℝ
  dte : ℤ
  bid : ℝ
  ask : ℝ
  mid : ℝ
  iv : ℝ
  delta : ℝ
  intrinsic : ℝ
  intrinsicPct : ℝ
  extrinsic : ℝ
  extrinsicPct : ℝ
  costPerShare : ℝ
  oi : ℝ
  spreadPct : ℝ

/-- The per-contract filter body of `find_ditm_calls`, src/ditm.py lines
464-543: each early `continue` becomes `none`, a surviving contract becomes the
appended row. -/
noncomputable def processContract (S : ℝ) (dte : ℤ) (c : RawContract) : Option Row :=
  if c.bid ≤ 0 ∨ c.ask ≤ 0 then none else
  let mid := (c.bid + c.ask) / 2
  if c.openInterest < MIN_OI then none else
  let spread_pct := (c.ask - c.bid) / mid
  if spread_pct > MAX_SPREAD_PCT then none else
  let intrinsic := max (S - c.strike) 0
  if intrinsic = 0 then none else
  let intrinsic_pct := intrinsic / mid
  if intrinsic_pct < MIN_INTRINSIC_PCT then none else
  let sigma := normalizeSigma c.volatility
  let delta := resolveDelta S c.strike ((dte : ℝ) / 365) sigma c.delta
  if ¬ (MIN_DELTA ≤ delta ∧ delta ≤ MAX_DELTA) then none else
  if sigma > MAX_IV then none else
  let shares_equiv := delta * 100
  let cost_per_share := if shares_equiv > 0 then mid / shares_equiv else 0
  let extrinsic := mid - intrinsic
  let extrinsic_pct := if mid > 0 then extrinsic / mid else 0
  let max_loss_for_dte := 0.05 + ((dte : ℝ) / 365) * 0.05
  let max_loss_cap := min max_loss_for_dte MAX_IMMEDIATE_LOSS_PCT
  if extrinsic_pct + spread_pct > max_loss_cap then none else
  some { strike := c.strike, dte := dte, bid := c.bid, ask := c.ask, mid := mid,
         iv := sigma, delta := delta, intrinsic := intrinsic,
         intrinsicPct := intrinsic_pct, extrinsic := extrinsic,
         extrinsicPct := extrinsic_pct, costPerShare := cost_per_share,
         oi := c.openInterest, spreadPct := spread_pct }

/-- The ranking score of src/ditm.py lines 550-555 (the `Score` column; lower
is more conservative). -/
noncomputable def scoreOf (r : Row) : ℝ :=
  0.4 * (1 - r.delta) + 0.3 * (1 - r.intrinsicPct) + 0.2 * r.iv / MAX_IV
    + 0.1 * r.spreadPct / MAX_SPREAD_PCT

/-- The data-processing part of `find_ditm_calls` (src/ditm.py lines 446-557):
drop expirations closer than `MIN_DTE`, filter every contract, then sort the
surviving rows ascending by score. `df.sort_values("Score")` is modelled here
as a sort by `scoreOf`; nothing proved below relies on how the library sort
orders rows of equal score (pandas' default `kind='quicksort'` is not a stable
sort). -/
noncomputable def find_ditm_calls (S : ℝ) (chain : List ExpGroup) : List Row :=
  let rows := chain.flatMap fun g =>
    if g.dte < MIN_DTE then [] else g.contracts.filterMap (processContract S g.dte)
  rows.mergeSort fun a b => decide (scoreOf a ≤ scoreOf b)

lemma normCdf_nonneg (x : ℝ) : 0 ≤ normCdf x :=
  ENNReal.toReal_nonneg

lemma normCdf_le_one (x : ℝ) : normCdf x ≤ 1 := by
  have h : (ProbabilityTheory.gaussianReal 0 1) (Set.Iic x) ≤ 1 :=
    MeasureTheory.prob_le_one
  have := ENNReal.toReal_mono ENNReal.one_ne_top h
  simpa [normCdf] using this

/-- C8. Pricing helper contract: for `T ≤ 0`, `bs_call_delta` returns exactly
`1.0` when `S > K` and `0.0` otherwise; for `T > 0` it returns `Φ(d1)` with
`d1 = (ln(S/K) + (r + 0.5·σ²)·T)/(σ·√T)`; in every case the result lies in
`[0, 1]`. -/
theorem bs_call_delta_spec (S K T r sigma : ℝ) :
    (T ≤ 0 → bs_call_delta S K T r sigma = if S > K then 1 else 0) ∧
    (0 < T → bs_call_delta S K T r sigma =
      normCdf ((Real.log (S / K) + (r + 0.5 * sigma ^ 2) * T) / (sigma * Real.sqrt T))) ∧
    0 ≤ bs_call_delta S K T r sigma ∧ bs_call_delta S K T r sigma ≤ 1 := by
  refine ⟨fun h => ?_, fun h => ?_, ?_, ?_⟩
  · rw [bs_call_delta, if_pos h]
    norm_num
  · rw [bs_call_delta, if_neg (not_le.mpr h)]
  · rw [bs_call_delta]
    split
    · split <;> norm_num
    · exact normCdf_nonneg _
  · rw [bs_call_delta]
    split
    · split <;> norm_num
    · exact normCdf_le_one _

/-- Witness for C8: at `S = 2, K = 1, T = 0`, the helper returns exactly 1. -/
theorem bs_call_delta_spec_witness : bs_call_delta 2 1 0 0 1 = 1 := by
  have h := (bs_call_delta_spec 2 1 0 0 1).1 (le_refl (0 : ℝ))
  rw [h]
  norm_num

lemma processContract_some {S : ℝ} {dte : ℤ} {c : RawContract} {r : Row}
    (h : processContract S dte c = some r) :
    r.strike = c.strike ∧ r.bid = c.bid ∧ r.ask = c.ask ∧
    r.mid = (c.bid + c.ask) / 2 ∧ r.oi = c.openInterest ∧
    r.iv = normalizeSigma c.volatility ∧
    r.intrinsic = max (S - c.strike) 0 ∧ 0 < r.intrinsic ∧
    r.intrinsicPct = r.intrinsic / r.mid ∧ MIN_INTRINSIC_PCT ≤ r.intrinsicPct ∧
    MIN_DELTA ≤ r.delta ∧ r.delta ≤ MAX_DELTA ∧
    r.spreadPct = (c.ask - c.bid) / r.mid ∧ r.spreadPct ≤ MAX_SPREAD_PCT ∧
    MIN_OI ≤ r.oi ∧ r.iv ≤ MAX_IV ∧ 0 < r.bid ∧ 0 < r.ask := by
  unfold processContract at h
  simp only [] at h
  split at h
  · exact absurd h (by simp)
  next hba =>
  push_neg at hba
  obtain ⟨hbid, hask⟩ := hba
  split at h
  · exact absurd h (by simp)
  next hoi =>
  split at h
  · exact absurd h (by simp)
  next hsp =>
  split at h
  · exact absurd h (by simp)
  next hintr =>
  split at h
  · exact absurd h (by simp)
  next hip =>
  split at h
  · exact absurd h (by simp)
  next hdelta =>
  split at h
  · exact absurd h (by simp)
  next hiv =>
  rw [not_not] at hdelta
  rw [if_pos (by linarith : (c.bid + c.ask) / 2 > 0)] at h
  split at h
  · exact absurd h (by simp)
  next himm =>
  rw [Option.some.injEq] at h
  subst h
  refine ⟨rfl, rfl, rfl, rfl, rfl, rfl, rfl, ?_, rfl, le_of_not_lt hip,
    hdelta.1, hdelta.2, rfl, le_of_not_lt hsp, le_of_not_lt hoi,
    le_of_not_lt hiv, hbid, hask⟩
  exact lt_of_le_of_ne (le_max_right _ _) (Ne.symm hintr)

/-- C1. Filter pipeline postcondition: every row emitted by `find_ditm_calls`
has `intrinsic = max(S-K,0) > 0`, `intrinsicPct ≥ MIN_INTRINSIC_PCT`,
`MIN_DELTA ≤ delta ≤ MAX_DELTA`, `spreadPct = (ask-bid)/mid ≤ MAX_SPREAD_PCT`,
`openInterest ≥ MIN_OI`, normalized `sigma ≤ MAX_IV` (the row's `iv` is the
normalization of the contract's reported volatility: divided by 100 when `> 1`,
defaulted to `0.30` when missing/NaN/zero), and no contract with `bid ≤ 0` or
`ask ≤ 0` is emitted. -/
theorem find_ditm_calls_postcondition (S : ℝ) (chain : List ExpGroup) (r : Row)
    (hr : r ∈ find_ditm_calls S chain) :
    r.intrinsic = max (S - r.strike) 0 ∧ 0 < r.intrinsic ∧
    MIN_INTRINSIC_PCT ≤ r.intrinsicPct ∧ r.intrinsicPct = r.intrinsic / r.mid ∧
    MIN_DELTA ≤ r.delta ∧ r.delta ≤ MAX_DELTA ∧
    r.spreadPct = (r.ask - r.bid) / r.mid ∧ r.spreadPct ≤ MAX_SPREAD_PCT ∧
    r.mid = (r.bid + r.ask) / 2 ∧ MIN_OI ≤ r.oi ∧ r.iv ≤ MAX_IV ∧
    0 < r.bid ∧ 0 < r.ask ∧
    (∃ g ∈ chain, ∃ c ∈ g.contracts, r.iv = normalizeSigma c.volatility) := by
  unfold find_ditm_calls at hr
  simp only [] at hr
  rw [List.mem_mergeSort] at hr
  rw [List.mem_flatMap] at hr
  obtain ⟨g, hg, hrg⟩ := hr
  split at hrg
  · exact absurd hrg (by simp)
  rw [List.mem_filterMap] at hrg
  obtain ⟨c, hc, hpc⟩ := hrg
  obtain ⟨hstrike, hbid, hask, hmid, hoi, hiv, hintr, hpos, hipct, hipmin,
    hdlo, hdhi, hspr, hsprle, hoimin, hivmax, hbidpos, haskpos⟩ :=
    processContract_some hpc
  refine ⟨hintr.trans (by rw [hstrike]), hpos, hipmin, hipct, hdlo, hdhi,
    hspr.trans (by rw [hbid, hask]), hsprle, hmid.trans (by rw [hbid, hask]),
    hoimin, hivmax, hbidpos, haskpos, g, hg, c, hc, hiv⟩

/-- Witness for C1: the worked example of spec §8 (S = 100; K = 80, bid = 19.40,
ask = 19.60, OI = 1000, IV = 0.20, delta = 0.90, DTE = 120) produces a candidate
row, and the pipeline postcondition holds for it. -/
theorem find_ditm_calls_postcondition_witness :
    ∃ r ∈ find_ditm_calls 100
        [⟨120, [⟨80, 19.40, 19.60, .val 0.20, 1000, .val 0.90⟩]⟩],
      0 < r.intrinsic ∧ MIN_INTRINSIC_PCT ≤ r.intrinsicPct ∧
      MIN_DELTA ≤ r.delta ∧ r.delta ≤ MAX_DELTA ∧
      r.spreadPct ≤ MAX_SPREAD_PCT ∧ MIN_OI ≤ r.oi ∧ r.iv ≤ MAX_IV ∧
      0 < r.bid ∧ 0 < r.ask := by
  obtain ⟨row, hrow⟩ :
      ∃ row, processContract 100 120 ⟨80, 19.40, 19.60, .val 0.20, 1000, .val 0.90⟩
        = some row := by
    unfold processContract
    norm_num [normalizeSigma, resolveDelta, MIN_OI, MAX_SPREAD_PCT,
      MIN_INTRINSIC_PCT, MIN_DELTA, MAX_DELTA, MAX_IV, MAX_IMMEDIATE_LOSS_PCT,
      max_def, min_def]
  have hmem : row ∈ find_ditm_calls 100
      [⟨120, [⟨80, 19.40, 19.60, .val 0.20, 1000, .val 0.90⟩]⟩] := by
    unfold find_ditm_calls
    rw [List.mem_mergeSort]
    simp only [List.flatMap_cons, List.flatMap_nil, List.append_nil]
    rw [if_neg (by norm_num [MIN_DTE])]
    simp [List.filterMap_cons, hrow]
  obtain ⟨-, h2, h3, -, h5, h6, -, h8, -, h10, h11, h12, h13, -⟩ :=
    find_ditm_calls_postcondition 100 _ row hmem
  exact ⟨row, hmem, h2, h3, h5, h6, h8, h10, h11, h12, h13⟩

/-- The seven-field threshold bundle of a preset: the `filters` subdict of an
entry of filter_presets.json as read by src/filter_matcher.py. -/
structure PresetFilters where
  MIN_DELTA : ℚ
  MAX_DELTA : ℚ
  MIN_INTRINSIC_PCT : ℚ
  MAX_EXTRINSIC_PCT : ℚ
  MIN_DTE : ℚ
  MAX_DTE : ℚ
  MAX_IV : ℚ
  MAX_SPREAD_PCT : ℚ
  MIN_OI : ℚ
  deriving DecidableEq

/-- The candidate-metrics record handed to the preset matcher (the dict built
at src/ditm.py lines 681-689). -/
structure OptionMetrics where
  delta : ℚ
  iv : ℚ
  intrinsic_pct : ℚ
  extrinsic_pct : ℚ
  dte : ℚ
  spread_pct : ℚ
  oi : ℚ
  deriving DecidableEq

/-- The match predicate of `FilterMatcher.check_preset_match`
(src/filter_matcher.py lines 45-79), applied to a preset's filters: the
conjunction of the seven threshold checks, in source order. -/
def check_preset_match (o : OptionMetrics) (f : PresetFilters) : Bool :=
  decide (f.MIN_DELTA ≤ o.delta ∧ o.delta ≤ f.MAX_DELTA) &&
  decide (o.intrinsic_pct ≥ f.MIN_INTRINSIC_PCT) &&
  decide (o.extrinsic_pct ≤ f.MAX_EXTRINSIC_PCT) &&
  decide (f.MIN_DTE ≤ o.dte ∧ o.dte ≤ f.MAX_DTE) &&
  decide (o.iv ≤ f.MAX_IV) &&
  decide (o.spread_pct ≤ f.MAX_SPREAD_PCT) &&
  decide (o.oi ≥ f.MIN_OI)

/-- The seven threshold checks of `check_preset_match` as a list of booleans,
in source order (src/filter_matcher.py lines 69-77). -/
def presetChecks (o : OptionMetrics) (f : PresetFilters) : List Bool :=
  [decide (f.MIN_DELTA ≤ o.delta ∧ o.delta ≤ f.MAX_DELTA),
   decide (o.intrinsic_pct ≥ f.MIN_INTRINSIC_PCT),
   decide (o.extrinsic_pct ≤ f.MAX_EXTRINSIC_PCT),
   decide (f.MIN_DTE ≤ o.dte ∧ o.dte ≤ f.MAX_DTE),
   decide (o.iv ≤ f.MAX_IV),
   decide (o.spread_pct ≤ f.MAX_SPREAD_PCT),
   decide (o.oi ≥ f.MIN_OI)]

/-- Preset lookup of `FilterMatcher.get_preset` (src/filter_matcher.py lines
30-35): the name-keyed preset dict is modelled as an association list. -/
def get_preset (presets : List (String × PresetFilters)) (name : String) :
    Option PresetFilters :=
  (presets.find? fun p => p.1 == name).map Prod.snd

/-- `FilterMatcher.check_all_preset_matches` (src/filter_matcher.py lines
81-97): iterate the preset names in dict order and keep the names whose
looked-up preset matches the option. -/
def check_all_preset_matches (presets : List (String × PresetFilters))
    (o : OptionMetrics) : List String :=
  presets.filterMap fun p =>
    match get_preset presets p.1 with
    | some f => if check_preset_match o f then some p.1 else none
    | none => none

lemma presetChecks_all (o : OptionMetrics) (f : PresetFilters) :
    (presetChecks o f).all id = check_preset_match o f := by
  simp [presetChecks, check_preset_match, Bool.and_assoc]

lemma get_preset_mem {presets : List (String × PresetFilters)}
    (hnodup : (presets.map Prod.fst).Nodup) {p : String × PresetFilters}
    (hp : p ∈ presets) : get_preset presets p.1 = some p.2 := by
  induction presets with
  | nil => cases hp
  | cons q rest ih =>
      rcases List.mem_cons.mp hp with h | h
      · subst h
        unfold get_preset
        rw [List.find?_cons_of_pos _ (by simp)]
        rfl
      · have hne : q.1 ≠ p.1 := by
          intro he
          have hmem : q.1 ∈ rest.map Prod.fst := he ▸ List.mem_map_of_mem Prod.fst h
          exact (List.nodup_cons.mp hnodup).1 hmem
        have hrec := ih (List.nodup_cons.mp hnodup).2 h
        unfold get_preset at hrec ⊢
        rw [List.find?_cons_of_neg _ (by simp [hne])]
        exact hrec

/-- C9. Preset matching: `check_preset_match` holds iff all seven threshold
predicates hold, so its value is invariant under any reordering of the seven
checks; and `check_all_preset_matches` returns exactly the preset names whose
filters the option satisfies. -/
theorem check_preset_match_spec (o : OptionMetrics)
    (presets : List (String × PresetFilters)) (f : PresetFilters) (name : String)
    (hnodup : (presets.map Prod.fst).Nodup) :
    (check_preset_match o f = true ↔
      ((f.MIN_DELTA ≤ o.delta ∧ o.delta ≤ f.MAX_DELTA) ∧
       o.intrinsic_pct ≥ f.MIN_INTRINSIC_PCT ∧
       o.extrinsic_pct ≤ f.MAX_EXTRINSIC_PCT ∧
       (f.MIN_DTE ≤ o.dte ∧ o.dte ≤ f.MAX_DTE) ∧
       o.iv ≤ f.MAX_IV ∧ o.spread_pct ≤ f.MAX_SPREAD_PCT ∧
       o.oi ≥ f.MIN_OI)) ∧
    (∀ l : List Bool, List.Perm (presetChecks o f) l →
      (l.all id = true ↔ check_preset_match o f = true)) ∧
    (name ∈ check_all_preset_matches presets o ↔
      ∃ g, (name, g) ∈ presets ∧ check_preset_match o g = true) := by
  refine ⟨?_, ?_, ?_⟩
  · simp [check_preset_match, and_assoc]
  · intro l hl
    rw [← presetChecks_all]
    simp only [List.all_eq_true]
    exact ⟨fun h x hx => h x (hl.mem_iff.mp hx), fun h x hx => h x (hl.mem_iff.mpr hx)⟩
  · unfold check_all_preset_matches
    rw [List.mem_filterMap]
    constructor
    · rintro ⟨p, hp, hsome⟩
      rw [get_preset_mem hnodup hp] at hsome
      have hsome' : (if check_preset_match o p.2 = true then some p.1 else none)
          = some name := hsome
      by_cases hc : check_preset_match o p.2 = true
      · rw [if_pos hc] at hsome'
        injection hsome' with he
        subst he
        exact ⟨p.2, hp, hc⟩
      · rw [if_neg hc] at hsome'
        cases hsome'
    · rintro ⟨g, hg, hc⟩
      refine ⟨(name, g), hg, ?_⟩
      rw [get_preset_mem hnodup hg]
      simp [hc]

/-- Witness for C9: a concrete option and a two-preset configuration; the
option matches the first preset and `check_all_preset_matches` returns it. -/
theorem check_preset_match_spec_witness :
    check_preset_match
        ⟨(85 : ℚ)/100, 22/100, 85/100, 15/100, 30, 12/1000, 750⟩
        ⟨(70 : ℚ)/100, 90/100, 70/100, 30/100, 15, 45, 30/100, 2/100, 250⟩
      = true ∧
    "moderate" ∈ check_all_preset_matches
        [("moderate", ⟨(70 : ℚ)/100, 90/100, 70/100, 30/100, 15, 45, 30/100, 2/100, 250⟩),
         ("strict", ⟨(80 : ℚ)/100, 95/100, 85/100, 15/100, 90, 365, 30/100, 2/100, 500⟩)]
        ⟨(85 : ℚ)/100, 22/100, 85/100, 15/100, 30, 12/1000, 750⟩ := by
  have h := check_preset_match_spec
    ⟨(85 : ℚ)/100, 22/100, 85/100, 15/100, 30, 12/1000, 750⟩
    [("moderate", ⟨(70 : ℚ)/100, 90/100, 70/100, 30/100, 15, 45, 30/100, 2/100, 250⟩),
     ("strict", ⟨(80 : ℚ)/100, 95/100, 85/100, 15/100, 90, 365, 30/100, 2/100, 500⟩)]
    ⟨(70 : ℚ)/100, 90/100, 70/100, 30/100, 15, 45, 30/100, 2/100, 250⟩
    "moderate" (by decide)
  refine ⟨h.1.mpr (by norm_num), ?_⟩
  refine h.2.2.mpr ⟨⟨(70 : ℚ)/100, 90/100, 70/100, 30/100, 15, 45, 30/100, 2/100, 250⟩,
    by simp, by norm_num [check_preset_match]⟩

/-- Status of a recommendation record (the strings `open`, `closed`, `expired`
of src/recommendation_tracker.py line 135). -/
inductive RecStatus where
  | open_
  | closed
  | expired
  deriving DecidableEq

/-- Decimal rounding used for the stored current-market fields
(`round(x, n)` in src/recommendation_tracker.py lines 240-244). Python rounds
the binary float half-to-even; exact ties are idealized by Mathlib `round`. -/
def pyRound (n : ℕ) (x : ℚ) : ℚ :=
  (round (x * 10 ^ n) : ℤ) / 10 ^ n

/-- One price snapshot appended by the JSON tracker
(src/recommendation_tracker.py lines 248-257). -/
structure JSnapshot where
  timestamp : ℤ
  stock_price : ℚ
  option_premium : ℚ
  delta : ℚ
  value : ℚ
  pnl : ℚ
  pnl_pct : ℚ
  deriving DecidableEq

/-- A recommendation record of the JSON tracker, with the fields
`update_recommendation_value` reads or writes
(src/recommendation_tracker.py lines 100-145). Instants are integers on one
timeline; `expiration` is the parsed midnight instant of the expiry date. -/
structure JRec where
  id : String
  ticker : String
  strike : ℚ
  expiration : ℤ
  total_cost : ℚ
  contracts_recommended : ℚ
  delta_at_rec : ℚ
  status : RecStatus
  current_value : Option ℚ
  current_stock_price : Option ℚ
  current_delta : Option ℚ
  unrealized_pnl : Option ℚ
  unrealized_pnl_pct : Option ℚ
  last_updated : Option ℤ
  snapshots : List JSnapshot
  deriving DecidableEq

/-- Outcome of the market-data interaction inside
`RecommendationTracker.update_recommendation_value`
(src/recommendation_tracker.py lines 184-232). The Schwab client is an
external collaborator, so one refresh observes either a failed quote request,
a failed chain request, no matching contract, or the matching contract's
bid/ask/delta together with the current stock price. -/
inductive JMarket where
  | quoteFail
  | chainFail (stock : ℚ)
  | notFound (stock : ℚ)
  | contract (stock bid ask : ℚ) (delta : Option ℚ)

/-- Replace the first element satisfying `p`, as Python's in-place mutation of
the first matching record in the list does. -/
def updateFirst {α : Type} (p : α → Bool) (f : α → α) : List α → List α
  | [] => []
  | x :: xs => if p x then f x :: xs else x :: updateFirst p f xs

/-- The expiry branch of `update_recommendation_value`
(src/recommendation_tracker.py lines 177-180). -/
def expireRec (rec : JRec) : JRec :=
  { rec with
    status := .expired,
    current_value := some 0,
    unrealized_pnl := some (-rec.total_cost),
    unrealized_pnl_pct := some (-100) }

namespace RecommendationTracker

/-- `RecommendationTracker.update_recommendation_value`
(src/recommendation_tracker.py lines 153-264). `now` is the current instant
and `market` summarizes the client interaction; the result is the updated
record list paired with the returned record, or the raised `ValueError` when
the id is unknown. -/
def update_recommendation_value (now : ℤ) (market : JMarket)
    (db : List JRec) (rec_id : String) : Except String (List JRec × JRec) :=
  match db.find? (fun r => r.id == rec_id) with
  | none => .error "Recommendation not found"
  | some rec =>
      if rec.expiration < now then
        .ok (updateFirst (fun r => r.id == rec_id) (fun _ => expireRec rec) db,
             expireRec rec)
      else
        match market with
        | .quoteFail => .ok (db, rec)
        | .chainFail _ => .ok (db, rec)
        | .notFound _ => .ok (db, rec)
        | .contract stock bid ask delta =>
            if 0 < bid ∧ 0 < ask then
              let premium := (bid + ask) / 2
              let cd := delta.getD rec.delta_at_rec
              let value := premium * rec.contracts_recommended * 100
              let pnl := value - rec.total_cost
              let pnl_pct := if 0 < rec.total_cost then pnl / rec.total_cost * 100 else 0
              let rec' := { rec with
                current_value := some (pyRound 2 value),
                current_stock_price := some (pyRound 2 stock),
                current_delta := if cd = 0 then none else some (pyRound 4 cd),
                unrealized_pnl := some (pyRound 2 pnl),
                unrealized_pnl_pct := some (pyRound 2 pnl_pct),
                last_updated := some now,
                snapshots := rec.snapshots ++ [⟨now, stock, premium, cd, value, pnl, pnl_pct⟩] }
              .ok (updateFirst (fun r => r.id == rec_id) (fun _ => rec') db, rec')
            else .ok (db, rec)

end RecommendationTracker

/-- C2. Expiry transition: refreshing an open recommendation whose expiration
is strictly past sets its status to `expired`, its current value to 0, its P&L
to `-total_cost` and its P&L% to `-100`, leaving every other field unchanged,
and does so without consulting market data: the result is identical for every
market outcome. -/
theorem update_expired_transition (now : ℤ) (market : JMarket) (db : List JRec)
    (rec_id : String) (rec : JRec)
    (hfind : db.find? (fun r => r.id == rec_id) = some rec)
    (hopen : rec.status = .open_) (hexp : rec.expiration < now) :
    RecommendationTracker.update_recommendation_value now market db rec_id =
      .ok (updateFirst (fun r => r.id == rec_id) (fun _ => expireRec rec) db,
           expireRec rec) ∧
    (expireRec rec).status = .expired ∧
    (expireRec rec).current_value = some 0 ∧
    (expireRec rec).unrealized_pnl = some (-rec.total_cost) ∧
    (expireRec rec).unrealized_pnl_pct = some (-100) ∧
    (expireRec rec).ticker = rec.ticker ∧
    (expireRec rec).strike = rec.strike ∧
    (expireRec rec).expiration = rec.expiration ∧
    (expireRec rec).total_cost = rec.total_cost ∧
    (expireRec rec).snapshots = rec.snapshots ∧
    (∀ m₂ : JMarket,
      RecommendationTracker.update_recommendation_value now market db rec_id =
      RecommendationTracker.update_recommendation_value now m₂ db rec_id) := by
  have hmain : ∀ m : JMarket,
      RecommendationTracker.update_recommendation_value now m db rec_id =
        .ok (updateFirst (fun r => r.id == rec_id) (fun _ => expireRec rec) db,
             expireRec rec) := by
    intro m
    unfold RecommendationTracker.update_recommendation_value
    rw [hfind]
    exact if_pos hexp
  exact ⟨hmain market, rfl, rfl, rfl, rfl, rfl, rfl, rfl, rfl, rfl,
    fun m₂ => (hmain market).trans (hmain m₂).symm⟩

/-- Witness for C2: a concrete open recommendation past its expiration is
marked expired with value 0, P&L `-1950`, P&L% `-100` by a refresh, for two
different market outcomes. -/
theorem update_expired_transition_witness :
    RecommendationTracker.update_recommendation_value 300 .quoteFail
        [⟨"r1", "AAPL", 80, 250, 1950, 1, 9/10, .open_,
          none, none, none, none, none, none, []⟩] "r1" =
      RecommendationTracker.update_recommendation_value 300
        (.contract 100 24 26 (some (9/10)))
        [⟨"r1", "AAPL", 80, 250, 1950, 1, 9/10, .open_,
          none, none, none, none, none, none, []⟩] "r1" ∧
    RecommendationTracker.update_recommendation_value 300 .quoteFail
        [⟨"r1", "AAPL", 80, 250, 1950, 1, 9/10, .open_,
          none, none, none, none, none, none, []⟩] "r1" =
      .ok ([⟨"r1", "AAPL", 80, 250, 1950, 1, 9/10, .expired,
             some 0, none, none, some (-1950), some (-100), none, []⟩],
           ⟨"r1", "AAPL", 80, 250, 1950, 1, 9/10, .expired,
             some 0, none, none, some (-1950), some (-100), none, []⟩) := by
  have h := update_expired_transition 300 .quoteFail
    [⟨"r1", "AAPL", 80, 250, 1950, 1, 9/10, .open_,
      none, none, none, none, none, none, []⟩] "r1"
    ⟨"r1", "AAPL", 80, 250, 1950, 1, 9/10, .open_,
      none, none, none, none, none, none, []⟩
    (by rfl) (by rfl) (by decide)
  obtain ⟨hmain, -, -, -, -, -, -, -, -, -, hind⟩ := h
  refine ⟨hind (.contract 100 24 26 (some (9/10))), ?_⟩
  rw [hmain]
  simp [updateFirst, expireRec]

/-- The identifying tuple of a recommendation row: the source builds
`rec_id = f"scan_id_ticker_strike_expiration"`
(src/recommendation_tracker_db.py line 121); the string concatenation is
modelled structurally by the tuple of its parts. -/
structure RecId where
  scan_id : String
  ticker : String
  strike : ℚ
  expiration : String
  deriving DecidableEq

/-- Modelled from the spec: db_schema.sql is not among the sources. Per spec
§3/§6 a scan row carries the `recommendationsCount`/`candidatesCount`
counters, which `record_scan` leaves at their schema default 0, and `scan_id`
is the primary key. -/
structure ScanRow where
  scan_id : String
  scan_date : String
  preset_name : Option String
  tickers : List String
  filter_params : String
  recommendations_count : ℤ
  candidates_count : ℤ
  deriving DecidableEq

/-- One row of the recommendations table, with the columns written by
`add_recommendation`, `update_recommendation_value` and
`close_recommendation` (src/recommendation_tracker_db.py lines 103-241). -/
structure DbRec where
  id : RecId
  scan_id : String
  recommendation_date : String
  ticker : String
  stock_price_at_rec : ℚ
  strike : ℚ
  expiration : String
  dte_at_rec : ℤ
  premium_bid : ℚ
  premium_ask : ℚ
  premium_mid : ℚ
  delta_at_rec : ℚ
  iv_at_rec : ℚ
  intrinsic_pct : ℚ
  extrinsic_value : ℚ
  extrinsic_pct : ℚ
  contracts_recommended : ℚ
  total_cost : ℚ
  equiv_shares : ℚ
  cost_per_share : ℚ
  score : ℚ
  spread_pct : ℚ
  open_interest : ℚ
  status : RecStatus
  closed_date : Option String
  close_reason : Option String
  current_bid : Option ℚ
  current_ask : Option ℚ
  current_mid : Option ℚ
  stock_current : Option ℚ
  delta_current : Option ℚ
  current_value : Option ℚ
  unrealized_pnl : Option ℚ
  unrealized_pnl_pct : Option ℚ
  last_updated : String
  deriving DecidableEq

/-- One row of the candidates table (src/recommendation_tracker_db.py lines
270-299); rows are keyed by an autoincrement rowid, so inserts always append. -/
structure CandRow where
  scan_id : String
  scan_date : String
  ticker : String
  stock_price : ℚ
  strike : ℚ
  expiration : String
  dte : ℤ
  bid : ℚ
  ask : ℚ
  mid : ℚ
  delta : ℚ
  iv : ℚ
  intrinsic : ℚ
  intrinsic_pct : ℚ
  extrinsic : ℚ
  extrinsic_pct : ℚ
  score : ℚ
  spread_pct : ℚ
  open_interest : ℚ
  cost_per_share : ℚ
  matched_presets : List String
  recommended : Bool
  deriving DecidableEq

/-- One row of the append-only price_snapshots table
(src/recommendation_tracker_db.py lines 211-221). -/
structure SnapRow where
  recommendation_id : RecId
  timestamp : String
  stock_price : Option ℚ
  option_bid : Option ℚ
  option_ask : Option ℚ
  option_mid : Option ℚ
  delta : Option ℚ
  value : ℚ
  pnl : ℚ
  pnl_pct : ℚ
  deriving DecidableEq

/-- The four tables of the SQLite store that the modelled operations touch. -/
structure DbState where
  scans : List ScanRow
  recommendations : List DbRec
  candidates : List CandRow
  snapshots : List SnapRow
  deriving DecidableEq

/-- The empty store created by a fresh database. -/
def dbInit : DbState := ⟨[], [], [], []⟩

/-- Argument record of `add_recommendation`
(src/recommendation_tracker_db.py lines 103-114). -/
structure RecArgs where
  scan_id : String
  ticker : String
  stock_price : ℚ
  strike : ℚ
  expiration : String
  dte : ℤ
  premium_bid : ℚ
  premium_ask : ℚ
  premium_mid : ℚ
  delta : ℚ
  iv : ℚ
  intrinsic_pct : ℚ
  oi : ℚ
  spread_pct : ℚ
  cost_per_share : ℚ
  contracts : ℚ
  total_cost : ℚ
  equiv_shares : ℚ
  score : ℚ
  extrinsic_value : ℚ := 0
  extrinsic_pct : ℚ := 0
  deriving DecidableEq

/-- Argument record of `add_candidate`
(src/recommendation_tracker_db.py lines 247-256). -/
structure CandArgs where
  scan_id : String
  ticker : String
  stock_price : ℚ
  strike : ℚ
  expiration : String
  dte : ℤ
  bid : ℚ
  ask : ℚ
  mid : ℚ
  delta : ℚ
  iv : ℚ
  intrinsic : ℚ
  intrinsic_pct : ℚ
  extrinsic : ℚ
  extrinsic_pct : ℚ
  score : ℚ
  spread_pct : ℚ
  oi : ℚ
  cost_per_share : ℚ
  matched_presets : List String := []
  recommended : Bool := false
  deriving DecidableEq

namespace RecommendationTrackerDB

/-- The `scan_id` derivation of `record_scan`
(src/recommendation_tracker_db.py line 64): drop every `-`, `:`, space and `T`
from the date string and prefix `scan_`. -/
def scanIdOf (scan_date : String) : String :=
  "scan_" ++ String.mk (scan_date.data.filter fun ch =>
    !(ch == '-' || ch == ':' || ch == ' ' || ch == 'T'))

/-- `RecommendationTrackerDB.record_scan`
(src/recommendation_tracker_db.py lines 50-79). Modelled from the spec for the
missing db_schema.sql: `scan_id` is the primary key, so a colliding INSERT
fails and leaves the store unchanged, and the count columns default to 0. -/
def record_scan (scan_date : String) (tickers : List String)
    (filter_params : String) (preset_name : Option String)
    (s : DbState) : DbState :=
  let sid := scanIdOf scan_date
  if s.scans.any (fun sc => sc.scan_id == sid) then s
  else { s with scans := s.scans ++
          [⟨sid, scan_date, preset_name, tickers, filter_params, 0, 0⟩] }

/-- `RecommendationTrackerDB.get_scan_info`
(src/recommendation_tracker_db.py lines 81-97). -/
def get_scan_info (s : DbState) (scan_id : String) : Option ScanRow :=
  s.scans.find? fun sc => sc.scan_id == scan_id

/-- `RecommendationTrackerDB.add_recommendation`
(src/recommendation_tracker_db.py lines 103-167): a missing scan raises and
leaves the store unchanged; otherwise the row is written with `INSERT OR
REPLACE` (the id is the primary key — modelled from the spec, db_schema.sql
being absent, per §3 a Recommendation is uniquely identified by its tuple) and
the scan's `recommendations_count` is incremented unconditionally. -/
def add_recommendation (a : RecArgs) (now : String) (s : DbState) : DbState :=
  match get_scan_info s a.scan_id with
  | none => s
  | some scan =>
      let rid : RecId := ⟨a.scan_id, a.ticker, a.strike, a.expiration⟩
      let newRec : DbRec :=
        { id := rid, scan_id := a.scan_id,
          recommendation_date := scan.scan_date,
          ticker := a.ticker, stock_price_at_rec := a.stock_price,
          strike := a.strike, expiration := a.expiration, dte_at_rec := a.dte,
          premium_bid := a.premium_bid, premium_ask := a.premium_ask,
          premium_mid := a.premium_mid, delta_at_rec := a.delta,
          iv_at_rec := a.iv, intrinsic_pct := a.intrinsic_pct,
          extrinsic_value := a.extrinsic_value, extrinsic_pct := a.extrinsic_pct,
          contracts_recommended := a.contracts, total_cost := a.total_cost,
          equiv_shares := a.equiv_shares, cost_per_share := a.cost_per_share,
          score := a.score, spread_pct := a.spread_pct, open_interest := a.oi,
          status := .open_, closed_date := none, close_reason := none,
          current_bid := none, current_ask := none, current_mid := none,
          stock_current := none, delta_current := none, current_value := none,
          unrealized_pnl := none, unrealized_pnl_pct := none,
          last_updated := now }
      { s with
        recommendations :=
          (s.recommendations.filter fun r => !(r.id == rid)) ++ [newRec],
        scans := s.scans.map fun sc =>
          if sc.scan_id = a.scan_id then
            { sc with recommendations_count := sc.recommendations_count + 1 }
          else sc }

/-- `RecommendationTrackerDB.add_candidate`
(src/recommendation_tracker_db.py lines 247-308): a missing scan raises and
leaves the store unchanged; otherwise the candidate row is appended and the
scan's `candidates_count` incremented. -/
def add_candidate (a : CandArgs) (s : DbState) : DbState :=
  match get_scan_info s a.scan_id with
  | none => s
  | some scan =>
      { s with
        candidates := s.candidates ++
          [{ scan_id := a.scan_id, scan_date := scan.scan_date,
             ticker := a.ticker, stock_price := a.stock_price,
             strike := a.strike, expiration := a.expiration, dte := a.dte,
             bid := a.bid, ask := a.ask, mid := a.mid, delta := a.delta,
             iv := a.iv, intrinsic := a.intrinsic,
             intrinsic_pct := a.intrinsic_pct, extrinsic := a.extrinsic,
             extrinsic_pct := a.extrinsic_pct, score := a.score,
             spread_pct := a.spread_pct, open_interest := a.oi,
             cost_per_share := a.cost_per_share,
             matched_presets := a.matched_presets,
             recommended := a.recommended }],
        scans := s.scans.map fun sc =>
          if sc.scan_id = a.scan_id then
            { sc with candidates_count := sc.candidates_count + 1 }
          else sc }

/-- The per-row effect of the UPDATE in
`RecommendationTrackerDB.close_recommendation`
(src/recommendation_tracker_db.py lines 234-240): a row matching ticker,
strike, expiration and status `open` becomes `closed` with the date and
reason; any other row is untouched. -/
def closeRow (ticker : String) (strike : ℚ) (expiration : String)
    (reason : String) (now : String) (r : DbRec) : DbRec :=
  if r.ticker = ticker ∧ r.strike = strike ∧ r.expiration = expiration ∧
      r.status = .open_ then
    { r with
      status := .closed,
      closed_date := some now,
      close_reason := some reason }
  else r

/-- `RecommendationTrackerDB.close_recommendation`
(src/recommendation_tracker_db.py lines 230-241). -/
def close_recommendation (ticker : String) (strike : ℚ) (expiration : String)
    (reason : String) (now : String) (s : DbState) : DbState :=
  { s with recommendations :=
      s.recommendations.map (closeRow ticker strike expiration reason now) }

/-- The column assignments of the UPDATE statement in
`update_recommendation_value` (src/recommendation_tracker_db.py lines
195-208): only the current-market columns and `last_updated` are written. -/
def setCurrentColumns (bid ask mid stock delta : Option ℚ)
    (value pnl pnlPct : ℚ) (now : String) (r : DbRec) : DbRec :=
  { r with
    current_bid := bid,
    current_ask := ask,
    current_mid := mid,
    stock_current := stock,
    delta_current := delta,
    current_value := some value,
    unrealized_pnl := some pnl,
    unrealized_pnl_pct := some pnlPct,
    last_updated := now }

/-- `RecommendationTrackerDB.update_recommendation_value`
(src/recommendation_tracker_db.py lines 169-223): an unknown id returns
without writing; a falsy `current_mid` (None or 0) writes nothing; otherwise
the row's current-market columns are updated and one snapshot row is
inserted. -/
def update_recommendation_value (rec_id : RecId)
    (current_bid current_ask current_mid stock_current delta_current : Option ℚ)
    (now : String) (s : DbState) : DbState :=
  match s.recommendations.find? (fun r => r.id == rec_id) with
  | none => s
  | some rec =>
      match current_mid with
      | none => s
      | some m =>
          if m = 0 then s
          else
            let current_value := m * rec.contracts_recommended * 100
            let unrealized_pnl := current_value - rec.total_cost
            let unrealized_pnl_pct :=
              if 0 < rec.total_cost then unrealized_pnl / rec.total_cost * 100
              else 0
            { s with
              recommendations := s.recommendations.map fun r =>
                if r.id = rec_id then
                  setCurrentColumns current_bid current_ask (some m)
                    stock_current delta_current current_value unrealized_pnl
                    unrealized_pnl_pct now r
                else r,
              snapshots := s.snapshots ++
                [⟨rec_id, now, stock_current, current_bid, current_ask, some m,
                  delta_current, current_value, unrealized_pnl,
                  unrealized_pnl_pct⟩] }

end RecommendationTrackerDB

lemma db_update_falsy (rid : RecId) (bid ask mid stock delta : Option ℚ)
    (now : String) (s : DbState) (hm : mid = none ∨ mid = some 0) :
    RecommendationTrackerDB.update_recommendation_value rid bid ask mid stock
      delta now s = s := by
  rcases hm with hm | hm <;> subst hm <;>
    unfold RecommendationTrackerDB.update_recommendation_value <;>
    cases hf : s.recommendations.find? (fun r => r.id == rid)
  · rfl
  · rfl
  · rfl
  · exact if_pos rfl

lemma db_update_notfound (rid : RecId) (bid ask mid stock delta : Option ℚ)
    (now : String) (s : DbState)
    (hf : s.recommendations.find? (fun r => r.id == rid) = none) :
    RecommendationTrackerDB.update_recommendation_value rid bid ask mid stock
      delta now s = s := by
  unfold RecommendationTrackerDB.update_recommendation_value
  rw [hf]

lemma db_update_truthy (rid : RecId) (bid ask stock delta : Option ℚ)
    (now : String) (s : DbState) (rec : DbRec) (m : ℚ)
    (hf : s.recommendations.find? (fun r => r.id == rid) = some rec)
    (hm0 : ¬ (m = 0)) :
    RecommendationTrackerDB.update_recommendation_value rid bid ask (some m)
        stock delta now s =
      { s with
        recommendations := s.recommendations.map fun r =>
          if r.id = rid then
            RecommendationTrackerDB.setCurrentColumns bid ask (some m) stock
              delta (m * rec.contracts_recommended * 100)
              (m * rec.contracts_recommended * 100 - rec.total_cost)
              (if 0 < rec.total_cost then
                (m * rec.contracts_recommended * 100 - rec.total_cost)
                  / rec.total_cost * 100
               else 0) now r
          else r,
        snapshots := s.snapshots ++
          [⟨rid, now, stock, bid, ask, some m, delta,
            m * rec.contracts_recommended * 100,
            m * rec.contracts_recommended * 100 - rec.total_cost,
            if 0 < rec.total_cost then
              (m * rec.contracts_recommended * 100 - rec.total_cost)
                / rec.total_cost * 100
            else 0⟩] } := by
  unfold RecommendationTrackerDB.update_recommendation_value
  rw [hf]
  exact if_neg hm0

/-- C10. Refresh frame effect of the SQLite tracker: a call with `current_mid`
None or 0, or with an id matching no stored recommendation, leaves the store
completely unchanged; with a nonzero mid on an existing recommendation exactly
one snapshot row is appended, only the matching row's current-market columns
(bid/ask/mid, stock price, delta, value, P&L, P&L%, `last_updated`) are
rewritten, and the scans and candidates tables, the other rows, and the
matching row's entry-time columns and status stay untouched. -/
theorem db_update_frame (rid : RecId) (bid ask mid stock delta : Option ℚ)
    (now : String) (s : DbState) :
    ((mid = none ∨ mid = some 0) →
      RecommendationTrackerDB.update_recommendation_value rid bid ask mid stock
        delta now s = s) ∧
    (s.recommendations.find? (fun r => r.id == rid) = none →
      RecommendationTrackerDB.update_recommendation_value rid bid ask mid stock
        delta now s = s) ∧
    (∀ rec m, s.recommendations.find? (fun r => r.id == rid) = some rec →
      mid = some m → ¬ (m = 0) →
      RecommendationTrackerDB.update_recommendation_value rid bid ask mid stock
          delta now s =
        { s with
          recommendations := s.recommendations.map fun r =>
            if r.id = rid then
              RecommendationTrackerDB.setCurrentColumns bid ask (some m) stock
                delta (m * rec.contracts_recommended * 100)
                (m * rec.contracts_recommended * 100 - rec.total_cost)
                (if 0 < rec.total_cost then
                  (m * rec.contracts_recommended * 100 - rec.total_cost)
                    / rec.total_cost * 100
                 else 0) now r
            else r,
          snapshots := s.snapshots ++
            [⟨rid, now, stock, bid, ask, some m, delta,
              m * rec.contracts_recommended * 100,
              m * rec.contracts_recommended * 100 - rec.total_cost,
              if 0 < rec.total_cost then
                (m * rec.contracts_recommended * 100 - rec.total_cost)
                  / rec.total_cost * 100
              else 0⟩] }) ∧
    (∀ b a mm st d v p pp n r,
      (RecommendationTrackerDB.setCurrentColumns b a mm st d v p pp n r).status
          = r.status ∧
      (RecommendationTrackerDB.setCurrentColumns b a mm st d v p pp n r).ticker
          = r.ticker ∧
      (RecommendationTrackerDB.setCurrentColumns b a mm st d v p pp n r).strike
          = r.strike ∧
      (RecommendationTrackerDB.setCurrentColumns b a mm st d v p pp n r).expiration
          = r.expiration ∧
      (RecommendationTrackerDB.setCurrentColumns b a mm st d v p pp n r).scan_id
          = r.scan_id ∧
      (RecommendationTrackerDB.setCurrentColumns b a mm st d v p pp n r).premium_bid
          = r.premium_bid ∧
      (RecommendationTrackerDB.setCurrentColumns b a mm st d v p pp n r).premium_ask
          = r.premium_ask ∧
      (RecommendationTrackerDB.setCurrentColumns b a mm st d v p pp n r).premium_mid
          = r.premium_mid ∧
      (RecommendationTrackerDB.setCurrentColumns b a mm st d v p pp n r).total_cost
          = r.total_cost ∧
      (RecommendationTrackerDB.setCurrentColumns b a mm st d v p pp n r).contracts_recommended
          = r.contracts_recommended ∧
      (RecommendationTrackerDB.setCurrentColumns b a mm st d v p pp n r).delta_at_rec
          = r.delta_at_rec ∧
      (RecommendationTrackerDB.setCurrentColumns b a mm st d v p pp n r).score
          = r.score ∧
      (RecommendationTrackerDB.setCurrentColumns b a mm st d v p pp n r).closed_date
          = r.closed_date ∧
      (RecommendationTrackerDB.setCurrentColumns b a mm st d v p pp n r).close_reason
          = r.close_reason) := by
  refine ⟨?_, ?_, ?_, ?_⟩
  · exact db_update_falsy rid bid ask mid stock delta now s
  · exact db_update_notfound rid bid ask mid stock delta now s
  · intro rec m hf hm hm0
    subst hm
    exact db_update_truthy rid bid ask stock delta now s rec m hf hm0
  · intro b a mm st d v p pp n r
    exact ⟨rfl, rfl, rfl, rfl, rfl, rfl, rfl, rfl, rfl, rfl, rfl, rfl, rfl, rfl⟩

/-- A concrete open recommendation row used by the C10 witness. -/
def wRec10 : DbRec :=
  { id := ⟨"s1", "AAPL", 80, "2026-01-16"⟩, scan_id := "s1",
    recommendation_date := "2025-09-18", ticker := "AAPL",
    stock_price_at_rec := 100, strike := 80, expiration := "2026-01-16",
    dte_at_rec := 120, premium_bid := 97/5, premium_ask := 98/5,
    premium_mid := 39/2, delta_at_rec := 9/10, iv_at_rec := 1/5,
    intrinsic_pct := 40/39, extrinsic_value := 0, extrinsic_pct := 0,
    contracts_recommended := 1, total_cost := 1950, equiv_shares := 90,
    cost_per_share := 13/60, score := 1/10, spread_pct := 2/195,
    open_interest := 1000, status := .open_, closed_date := none,
    close_reason := none, current_bid := none, current_ask := none,
    current_mid := none, stock_current := none, delta_current := none,
    current_value := none, unrealized_pnl := none, unrealized_pnl_pct := none,
    last_updated := "2025-09-18" }

/-- A concrete store holding only `wRec10`. -/
def wState10 : DbState := ⟨[], [wRec10], [], []⟩

/-- Witness for C10: on a concrete one-recommendation store, a refresh with
`current_mid = None` changes nothing, and a refresh with `current_mid = 25`
appends exactly one snapshot row. -/
theorem db_update_frame_witness :
    RecommendationTrackerDB.update_recommendation_value
        ⟨"s1", "AAPL", 80, "2026-01-16"⟩ (some 24) (some 26) none (some 100)
        (some (9/10)) "t1" wState10 = wState10 ∧
    (RecommendationTrackerDB.update_recommendation_value
        ⟨"s1", "AAPL", 80, "2026-01-16"⟩ (some 24) (some 26) (some 25)
        (some 100) (some (9/10)) "t1" wState10).snapshots.length
      = wState10.snapshots.length + 1 := by
  have hfind : wState10.recommendations.find?
      (fun r => r.id == (⟨"s1", "AAPL", 80, "2026-01-16"⟩ : RecId))
        = some wRec10 := by rfl
  have h1 := db_update_frame ⟨"s1", "AAPL", 80, "2026-01-16"⟩ (some 24)
    (some 26) none (some 100) (some (9/10)) "t1" wState10
  have h2 := db_update_frame ⟨"s1", "AAPL", 80, "2026-01-16"⟩ (some 24)
    (some 26) (some 25) (some 100) (some (9/10)) "t1" wState10
  refine ⟨h1.1 (Or.inl rfl), ?_⟩
  rw [h2.2.2.1 wRec10 25 hfind rfl (by norm_num)]
  simp [wState10]

/-- A concrete closed recommendation row used to refute terminal finality. -/
def wRec4 : DbRec :=
  { wRec10 with
    status := .closed,
    closed_date := some "2025-10-01",
    close_reason := some "User closed" }

/-- A concrete store holding only the closed `wRec4`. -/
def wState4 : DbState := ⟨[], [wRec4], [], []⟩

/-- Counterexample for C4: `update_recommendation_value` called on a
recommendation whose status is `closed`, with a nonzero `current_mid`, mutates
the store — it appends a snapshot row for that recommendation — contradicting
the claim that no store operation mutates a terminal recommendation. -/
theorem db_terminal_mutation_counterexample :
    wRec4.status = .closed ∧
    RecommendationTrackerDB.update_recommendation_value
        ⟨"s1", "AAPL", 80, "2026-01-16"⟩ (some 24) (some 26) (some 25)
        (some 100) (some (9/10)) "t2" wState4 ≠ wState4 ∧
    (RecommendationTrackerDB.update_recommendation_value
        ⟨"s1", "AAPL", 80, "2026-01-16"⟩ (some 24) (some 26) (some 25)
        (some 100) (some (9/10)) "t2" wState4).snapshots.length
      = wState4.snapshots.length + 1 ∧
    (RecommendationTrackerDB.update_recommendation_value
        ⟨"s1", "AAPL", 80, "2026-01-16"⟩ (some 24) (some 26) (some 25)
        (some 100) (some (9/10)) "t2" wState4).recommendations.map
          (fun r => r.current_value) = [some 2500] := by
  have hfind : wState4.recommendations.find?
      (fun r => r.id == (⟨"s1", "AAPL", 80, "2026-01-16"⟩ : RecId))
        = some wRec4 := by rfl
  have h := db_update_truthy ⟨"s1", "AAPL", 80, "2026-01-16"⟩ (some 24)
    (some 26) (some 100) (some (9/10)) "t2" wState4 wRec4 25 hfind (by norm_num)
  rw [h]
  refine ⟨rfl, ?_, by simp [wState4], ?_⟩
  · intro heq
    have hsnap := congrArg DbState.snapshots heq
    simp [wState4] at hsnap
  · simp only [wState4, wRec4, wRec10, List.map_cons, List.map_nil]
    norm_num [RecommendationTrackerDB.setCurrentColumns]

/-- C4 (amended). Terminal finality holds for `close_recommendation` — a
recommendation whose status is not `open` is never modified by it, and no
other table is touched — and for `update_recommendation_value` with a falsy
`current_mid` or an unknown id; but `update_recommendation_value` with a
nonzero `current_mid` performs no status check: it rewrites the matching
row's current-market columns and appends a snapshot even when that row is
`closed` or `expired`. -/
theorem db_terminal_finality_amended :
    (∀ (ticker : String) (strike : ℚ) (expiration reason now : String)
        (r : DbRec), ¬ (r.status = .open_) →
      RecommendationTrackerDB.closeRow ticker strike expiration reason now r
        = r) ∧
    (∀ (ticker : String) (strike : ℚ) (expiration reason now : String)
        (s : DbState),
      (RecommendationTrackerDB.close_recommendation ticker strike expiration
        reason now s).scans = s.scans ∧
      (RecommendationTrackerDB.close_recommendation ticker strike expiration
        reason now s).candidates = s.candidates ∧
      (RecommendationTrackerDB.close_recommendation ticker strike expiration
        reason now s).snapshots = s.snapshots) ∧
    (∀ (rid : RecId) (bid ask mid stock delta : Option ℚ) (now : String)
        (s : DbState), (mid = none ∨ mid = some 0) →
      RecommendationTrackerDB.update_recommendation_value rid bid ask mid stock
        delta now s = s) ∧
    (∀ (rid : RecId) (bid ask stock delta : Option ℚ) (now : String)
        (s : DbState) (rec : DbRec) (m : ℚ),
      s.recommendations.find? (fun r => r.id == rid) = some rec →
      ¬ (m = 0) → ¬ (rec.status = .open_) →
      (RecommendationTrackerDB.update_recommendation_value rid bid ask (some m)
          stock delta now s).snapshots = s.snapshots ++
        [⟨rid, now, stock, bid, ask, some m, delta,
          m * rec.contracts_recommended * 100,
          m * rec.contracts_recommended * 100 - rec.total_cost,
          if 0 < rec.total_cost then
            (m * rec.contracts_recommended * 100 - rec.total_cost)
              / rec.total_cost * 100
          else 0⟩]) := by
  refine ⟨?_, ?_, ?_, ?_⟩
  · intro ticker strike expiration reason now r hst
    unfold RecommendationTrackerDB.closeRow
    rw [if_neg]
    intro hc
    exact hst hc.2.2.2
  · intro ticker strike expiration reason now s
    exact ⟨rfl, rfl, rfl⟩
  · intro rid bid ask mid stock delta now s hm
    exact db_update_falsy rid bid ask mid stock delta now s hm
  · intro rid bid ask stock delta now s rec m hf hm0 _
    rw [db_update_truthy rid bid ask stock delta now s rec m hf hm0]

/-- Witness for C4 (amended): closing an already-closed concrete row changes
nothing; a falsy refresh changes nothing; a nonzero-mid refresh of the closed
row appends the snapshot. -/
theorem db_terminal_finality_amended_witness :
    RecommendationTrackerDB.closeRow "AAPL" 80 "2026-01-16" "again" "t3" wRec4
      = wRec4 ∧
    RecommendationTrackerDB.update_recommendation_value
      ⟨"s1", "AAPL", 80, "2026-01-16"⟩ none none none none none "t3" wState4
      = wState4 ∧
    (RecommendationTrackerDB.update_recommendation_value
        ⟨"s1", "AAPL", 80, "2026-01-16"⟩ none none (some 25) none none "t3"
        wState4).snapshots.length = 1 := by
  have h := db_terminal_finality_amended
  refine ⟨h.1 "AAPL" 80 "2026-01-16" "again" "t3" wRec4 (by simp [wRec4]), ?_, ?_⟩
  · exact h.2.2.1 ⟨"s1", "AAPL", 80, "2026-01-16"⟩ none none none none none
      "t3" wState4 (Or.inl rfl)
  · rw [h.2.2.2 ⟨"s1", "AAPL", 80, "2026-01-16"⟩ none none none none "t3"
      wState4 wRec4 25 (by rfl) (by norm_num) (by simp [wRec4])]
    simp [wState4]

/-- Counter consistency of claim C5: every scan row's counters equal the
number of recommendation and candidate rows recorded with its scan id. -/
def countersConsistent (s : DbState) : Prop :=
  ∀ sc ∈ s.scans,
    sc.recommendations_count =
      ((s.recommendations.filter fun r => r.scan_id == sc.scan_id).length : ℤ) ∧
    sc.candidates_count =
      ((s.candidates.filter fun c => c.scan_id == sc.scan_id).length : ℤ)

/-- Referential soundness: every recommendation and candidate row carries the
scan id of some scan row (true of every store reachable through the modelled
operations, which refuse rows for unknown scans). -/
def rowsHaveScans (s : DbState) : Prop :=
  (∀ r ∈ s.recommendations, ∃ sc ∈ s.scans, sc.scan_id = r.scan_id) ∧
  (∀ c ∈ s.candidates, ∃ sc ∈ s.scans, sc.scan_id = c.scan_id)

instance (s : DbState) : Decidable (countersConsistent s) := by
  unfold countersConsistent
  infer_instance

/-- The argument bundle used by the C5 trace: a recommendation for the scan
recorded at date 2025-01-01. -/
def cArgs5 : RecArgs :=
  { scan_id := "scan_20250101", ticker := "AAPL", stock_price := 100,
    strike := 80, expiration := "2026-01-16", dte := 120, premium_bid := 97/5,
    premium_ask := 98/5, premium_mid := 39/2, delta := 9/10, iv := 1/5,
    intrinsic_pct := 40/39, oi := 1000, spread_pct := 2/195,
    cost_per_share := 13/60, contracts := 1, total_cost := 1960,
    equiv_shares := 90, score := 1/10 }

/-- Counterexample for C5: after `record_scan` followed by two
`add_recommendation` calls with the same identifying tuple (the second
`INSERT OR REPLACE` replaces the first row while the counter is incremented
again), the scan's `recommendations_count` is 2 but only one recommendation
row exists — the claimed equality fails. -/
theorem db_counter_counterexample :
    ¬ countersConsistent
        (RecommendationTrackerDB.add_recommendation cArgs5 "t2"
          (RecommendationTrackerDB.add_recommendation cArgs5 "t1"
            (RecommendationTrackerDB.record_scan "2025-01-01" ["AAPL"] "fp"
              none dbInit))) := by
  decide

/-- C5 (amended). Counter consistency: starting from the empty store,
`record_scan` and `add_candidate` preserve the equality of each scan's
counters with its row counts, and `add_recommendation` preserves it provided
the inserted identifying tuple is new; re-inserting an existing tuple replaces
the row via INSERT OR REPLACE while still incrementing the counter, which
breaks the equality (see the counterexample). -/
theorem db_counters_amended :
    (countersConsistent dbInit ∧ rowsHaveScans dbInit) ∧
    (∀ (d : String) (t : List String) (fp : String) (pn : Option String)
        (s : DbState), countersConsistent s → rowsHaveScans s →
      countersConsistent (RecommendationTrackerDB.record_scan d t fp pn s) ∧
      rowsHaveScans (RecommendationTrackerDB.record_scan d t fp pn s)) ∧
    (∀ (a : CandArgs) (s : DbState), countersConsistent s → rowsHaveScans s →
      countersConsistent (RecommendationTrackerDB.add_candidate a s) ∧
      rowsHaveScans (RecommendationTrackerDB.add_candidate a s)) ∧
    (∀ (a : RecArgs) (now : String) (s : DbState),
      countersConsistent s → rowsHaveScans s →
      (∀ r ∈ s.recommendations,
        ¬ (r.id = ⟨a.scan_id, a.ticker, a.strike, a.expiration⟩)) →
      countersConsistent (RecommendationTrackerDB.add_recommendation a now s) ∧
      rowsHaveScans (RecommendationTrackerDB.add_recommendation a now s)) := by
  refine ⟨⟨?_, ?_, ?_⟩, ?_, ?_, ?_⟩
  · intro sc hsc
    cases hsc
  · intro r hrm
    cases hrm
  · intro c hcm
    cases hcm
  -- record_scan
  · intro d t fp pn s hc hr
    simp only [RecommendationTrackerDB.record_scan]
    split
    · exact ⟨hc, hr⟩
    next hany =>
      constructor
      · intro sc hsc
        rcases List.mem_append.mp hsc with hsc | hsc
        · exact hc sc hsc
        · have hsceq := List.mem_singleton.mp hsc
          subst hsceq
          have hnone : ∀ (sid' : String),
              (¬ s.scans.any (fun sc0 => sc0.scan_id ==
                RecommendationTrackerDB.scanIdOf d) = true) →
              True := fun _ _ => trivial
          constructor
          · have hnil : s.recommendations.filter
                (fun r => r.scan_id == RecommendationTrackerDB.scanIdOf d)
                  = [] := by
              rw [List.filter_eq_nil_iff]
              intro r hrm hpr
              obtain ⟨sc0, hsc0, he⟩ := hr.1 r hrm
              apply hany
              refine List.any_eq_true.mpr ⟨sc0, hsc0, ?_⟩
              have : r.scan_id = RecommendationTrackerDB.scanIdOf d := by
                simpa using hpr
              simp [he, this]
            simp [hnil]
          · have hnil : s.candidates.filter
                (fun c => c.scan_id == RecommendationTrackerDB.scanIdOf d)
                  = [] := by
              rw [List.filter_eq_nil_iff]
              intro c hcm hpc
              obtain ⟨sc0, hsc0, he⟩ := hr.2 c hcm
              apply hany
              refine List.any_eq_true.mpr ⟨sc0, hsc0, ?_⟩
              have : c.scan_id = RecommendationTrackerDB.scanIdOf d := by
                simpa using hpc
              simp [he, this]
            simp [hnil]
      · constructor
        · intro r hrm
          obtain ⟨sc0, hsc0, he⟩ := hr.1 r hrm
          exact ⟨sc0, List.mem_append_left _ hsc0, he⟩
        · intro c hcm
          obtain ⟨sc0, hsc0, he⟩ := hr.2 c hcm
          exact ⟨sc0, List.mem_append_left _ hsc0, he⟩
  -- add_candidate
  · intro a s hc hr
    unfold RecommendationTrackerDB.add_candidate
    cases hscan : RecommendationTrackerDB.get_scan_info s a.scan_id with
    | none => exact ⟨hc, hr⟩
    | some scan =>
      have hscan' : s.scans.find? (fun sc => sc.scan_id == a.scan_id)
          = some scan := hscan
      have hsid : scan.scan_id = a.scan_id := by
        have := List.find?_some hscan'
        simpa using this
      dsimp only
      constructor
      · intro sc' hsc'
        rw [List.mem_map] at hsc'
        obtain ⟨sc, hsc, hfc⟩ := hsc'
        by_cases hid : sc.scan_id = a.scan_id
        · rw [if_pos hid] at hfc
          subst hfc
          refine ⟨(hc sc hsc).1, ?_⟩
          rw [List.filter_append]
          have hrow1 : ∀ nc : CandRow, nc.scan_id = a.scan_id →
              (([nc]).filter (fun c => c.scan_id == sc.scan_id)).length = 1 := by
            intro nc hnc
            simp [hnc, hid]
          rw [List.length_append, hrow1 _ rfl]
          have := (hc sc hsc).2
          push_cast
          omega
        · rw [if_neg hid] at hfc
          subst hfc
          refine ⟨(hc sc hsc).1, ?_⟩
          rw [List.filter_append]
          have hrow0 : ∀ nc : CandRow, nc.scan_id = a.scan_id →
              (([nc]).filter (fun c => c.scan_id == sc.scan_id)).length = 0 := by
            intro nc hnc
            simp [hnc]
            intro he
            exact absurd he (fun h => hid h.symm)
          rw [List.length_append, hrow0 _ rfl]
          have := (hc sc hsc).2
          push_cast
          omega
      · constructor
        · intro r hrm
          obtain ⟨sc0, hsc0, he⟩ := hr.1 r hrm
          by_cases hid : sc0.scan_id = a.scan_id
          · refine ⟨{ sc0 with candidates_count := sc0.candidates_count + 1 },
              ?_, he⟩
            rw [List.mem_map]
            exact ⟨sc0, hsc0, by rw [if_pos hid]⟩
          · refine ⟨sc0, ?_, he⟩
            rw [List.mem_map]
            exact ⟨sc0, hsc0, by rw [if_neg hid]⟩
        · intro c hcm
          rcases List.mem_append.mp hcm with hcm | hcm
          · obtain ⟨sc0, hsc0, he⟩ := hr.2 c hcm
            by_cases hid : sc0.scan_id = a.scan_id
            · refine ⟨{ sc0 with candidates_count := sc0.candidates_count + 1 },
                ?_, he⟩
              rw [List.mem_map]
              exact ⟨sc0, hsc0, by rw [if_pos hid]⟩
            · refine ⟨sc0, ?_, he⟩
              rw [List.mem_map]
              exact ⟨sc0, hsc0, by rw [if_neg hid]⟩
          · have hceq := List.mem_singleton.mp hcm
            subst hceq
            have hsmem : scan ∈ s.scans := List.mem_of_find?_eq_some hscan'
            refine ⟨{ scan with candidates_count := scan.candidates_count + 1 },
              ?_, hsid⟩
            rw [List.mem_map]
            exact ⟨scan, hsmem, by rw [if_pos hsid]⟩
  -- add_recommendation
  · intro a now s hc hr hfresh
    unfold RecommendationTrackerDB.add_recommendation
    cases hscan : RecommendationTrackerDB.get_scan_info s a.scan_id with
    | none => exact ⟨hc, hr⟩
    | some scan =>
      have hscan' : s.scans.find? (fun sc => sc.scan_id == a.scan_id)
          = some scan := hscan
      have hsid : scan.scan_id = a.scan_id := by
        have := List.find?_some hscan'
        simpa using this
      have hkeep : s.recommendations.filter
          (fun r => !(r.id == (⟨a.scan_id, a.ticker, a.strike, a.expiration⟩ :
            RecId))) = s.recommendations := by
        rw [List.filter_eq_self]
        intro r hrm
        simp [hfresh r hrm]
      dsimp only
      constructor
      · intro sc' hsc'
        rw [List.mem_map] at hsc'
        obtain ⟨sc, hsc, hfc⟩ := hsc'
        by_cases hid : sc.scan_id = a.scan_id
        · rw [if_pos hid] at hfc
          subst hfc
          refine ⟨?_, (hc sc hsc).2⟩
          rw [hkeep, List.filter_append]
          have hrow1 : ∀ nr : DbRec, nr.scan_id = a.scan_id →
              (([nr]).filter (fun r => r.scan_id == sc.scan_id)).length = 1 := by
            intro nr hnr
            simp [hnr, hid]
          rw [List.length_append, hrow1 _ rfl]
          have := (hc sc hsc).1
          push_cast
          omega
        · rw [if_neg hid] at hfc
          subst hfc
          refine ⟨?_, (hc sc hsc).2⟩
          rw [hkeep, List.filter_append]
          have hrow0 : ∀ nr : DbRec, nr.scan_id = a.scan_id →
              (([nr]).filter (fun r => r.scan_id == sc.scan_id)).length = 0 := by
            intro nr hnr
            simp [hnr]
            intro he
            exact absurd he (fun h => hid h.symm)
          rw [List.length_append, hrow0 _ rfl]
          have := (hc sc hsc).1
          push_cast
          omega
      · constructor
        · intro r hrm
          rw [hkeep] at hrm
          rcases List.mem_append.mp hrm with hrm | hrm
          · obtain ⟨sc0, hsc0, he⟩ := hr.1 r hrm
            by_cases hid : sc0.scan_id = a.scan_id
            · refine ⟨{ sc0 with recommendations_count :=
                sc0.recommendations_count + 1 }, ?_, he⟩
              rw [List.mem_map]
              exact ⟨sc0, hsc0, by rw [if_pos hid]⟩
            · refine ⟨sc0, ?_, he⟩
              rw [List.mem_map]
              exact ⟨sc0, hsc0, by rw [if_neg hid]⟩
          · have hreq := List.mem_singleton.mp hrm
            subst hreq
            have hsmem : scan ∈ s.scans := List.mem_of_find?_eq_some hscan'
            refine ⟨{ scan with recommendations_count :=
              scan.recommendations_count + 1 }, ?_, hsid⟩
            rw [List.mem_map]
            exact ⟨scan, hsmem, by rw [if_pos hsid]⟩
        · intro c hcm
          obtain ⟨sc0, hsc0, he⟩ := hr.2 c hcm
          by_cases hid : sc0.scan_id = a.scan_id
          · refine ⟨{ sc0 with recommendations_count :=
              sc0.recommendations_count + 1 }, ?_, he⟩
            rw [List.mem_map]
            exact ⟨sc0, hsc0, by rw [if_pos hid]⟩
          · refine ⟨sc0, ?_, he⟩
            rw [List.mem_map]
            exact ⟨sc0, hsc0, by rw [if_neg hid]⟩

/-- Witness for C5 (amended): the empty store is consistent, and recording a
scan, then adding one fresh recommendation for it, keeps every counter equal
to its row count. -/
theorem db_counters_amended_witness :
    countersConsistent
      (RecommendationTrackerDB.add_recommendation cArgs5 "t1"
        (RecommendationTrackerDB.record_scan "2025-01-01" ["AAPL"] "fp" none
          dbInit)) := by
  have h := db_counters_amended
  have h1 := h.2.1 "2025-01-01" ["AAPL"] "fp" none dbInit h.1.1 h.1.2
  exact (h.2.2.2 cArgs5 "t1" _ h1.1 h1.2 (by decide)).1

/-- Arithmetic mean of a list (numpy/pandas `mean`); the empty mean is
exact-real junk 0 where pandas yields NaN. -/
noncomputable def listMean (l : List ℝ) : ℝ := l.sum / l.length

/-- Sample standard deviation with one delta degree of freedom
(`np.std(·, ddof=1)`, pandas `Series.std()`); the division by `n - 1 = 0` for
a one-element list is exact-real junk 0 where numpy/pandas yield NaN. -/
noncomputable def stdSample (l : List ℝ) : ℝ :=
  Real.sqrt ((l.map fun x => (x - listMean l) ^ 2).sum / ((l.length : ℝ) - 1))

/-- Minimum of a list, 0 when empty (`Series.min()` is used on nonempty
series only). -/
noncomputable def listMin : List ℝ → ℝ
  | [] => 0
  | x :: xs => xs.foldl min x

/-- Maximum of a list, 0 when empty. -/
noncomputable def listMax : List ℝ → ℝ
  | [] => 0
  | x :: xs => xs.foldl max x

/-- numpy `median`: the middle of the sorted values, or the mean of the two
middles for an even count. -/
noncomputable def listMedian (l : List ℝ) : ℝ :=
  let s := l.mergeSort fun a b => decide (a ≤ b)
  if l.length % 2 = 1 then s.getD (l.length / 2) 0
  else (s.getD (l.length / 2 - 1) 0 + s.getD (l.length / 2) 0) / 2

/-- The cumulative-return curve `(1 + returns/100).cumprod()` of both
drawdown computations (src/recommendation_tracker.py line 371,
src/recommendation_tracker_db.py line 508). -/
noncomputable def cumCurve (rs : List ℝ) : List ℝ :=
  ((rs.map fun r => 1 + r / 100).scanl (fun acc x => acc * x) 1).tail

/-- Helper for the running maximum: the expanding maximum continuing from `m`. -/
noncomputable def expandingMaxFrom (m : ℝ) : List ℝ → List ℝ
  | [] => []
  | x :: xs => max m x :: expandingMaxFrom (max m x) xs

/-- The running maximum `cumulative.expanding().max()`
(src/recommendation_tracker.py line 372,
src/recommendation_tracker_db.py line 509). -/
noncomputable def expandingMax : List ℝ → List ℝ
  | [] => []
  | x :: xs => x :: expandingMaxFrom x xs

/-- The drawdown series `(cumulative - runningMax)/runningMax`
(src/recommendation_tracker.py line 373,
src/recommendation_tracker_db.py line 510). -/
noncomputable def drawdownSeries (rs : List ℝ) : List ℝ :=
  List.zipWith (fun c m => (c - m) / m) (cumCurve rs)
    (expandingMax (cumCurve rs))

namespace RecommendationTracker

/-- The max-drawdown computation of the JSON tracker,
src/recommendation_tracker.py lines 368-374, applied to the P&L% series in
ascending `Rec_Date` order (the source sorts by `Rec_Date` first): drawdowns
are expressed in percent and the reported value is `abs(drawdown.min())`. -/
noncomputable def maxDrawdown (rs : List ℝ) : ℝ :=
  if rs = [] then 0
  else |listMin ((drawdownSeries rs).map fun d => d * 100)|

end RecommendationTracker

namespace RecommendationTrackerDB

/-- The max-drawdown computation of the SQLite tracker,
src/recommendation_tracker_db.py lines 507-511, applied to the return series
in the order its `get_performance_summary` delivers — `ORDER BY
recommendation_date DESC`, i.e. reverse time order — and reported as
`drawdown.min() * 100`, a non-positive number. -/
noncomputable def maxDrawdown (returnsDesc : List ℝ) : ℝ :=
  listMin (drawdownSeries returnsDesc) * 100

end RecommendationTrackerDB

/-- Modelled from the spec (spec §4.6 wording, for comparison with the two
implementations): build the cumulative curve over the time-ordered returns,
track the running maximum, and report the most negative drawdown as a
non-negative percentage magnitude. -/
noncomputable def specMaxDrawdown (rs : List ℝ) : ℝ :=
  if rs = [] then 0 else |listMin (drawdownSeries rs)| * 100

/-- One row of the JSON tracker's performance summary with the columns
`calculate_risk_metrics` consumes (src/recommendation_tracker.py lines
317-341). `rec_date` is an integer date key: the source sorts the ISO date
strings, whose lexicographic order is chronological. -/
structure PerfRow where
  rec_date : ℤ
  pnl_pct : ℝ
  pnl : ℝ
  days_held : ℝ
  total_cost : ℝ

/-- A float-valued metric entry: an ordinary value, or the IEEE infinity that
`float('inf')` produces. -/
inductive MetricVal where
  | val (x : ℝ)
  | inf

/-- The single-pass streak scan of src/recommendation_tracker.py lines
459-480: fold over the win/loss booleans in date order carrying the maxima,
the current streak type and its length, then flush the final streak. -/
def streakScan (results : List Bool) : ℕ × ℕ :=
  let step : (ℕ × ℕ × Option Bool × ℕ) → Bool → (ℕ × ℕ × Option Bool × ℕ) :=
    fun st is_win =>
      match st with
      | (maxw, maxl, cur_type, cur_streak) =>
        match cur_type with
        | some t =>
            if is_win = t then (maxw, maxl, some t, cur_streak + 1)
            else if t then (max maxw cur_streak, maxl, some is_win, 1)
            else (maxw, max maxl cur_streak, some is_win, 1)
        | none => (maxw, maxl, some is_win, 1)
  match results.foldl step (0, 0, none, 0) with
  | (maxw, maxl, cur_type, cur_streak) =>
    match cur_type with
    | some t => if t then (max maxw cur_streak, maxl) else (maxw, max maxl cur_streak)
    | none => (maxw, maxl)

/-- The metrics dict built by the JSON tracker's `calculate_risk_metrics`
(src/recommendation_tracker.py lines 345-488). -/
structure JsonMetrics where
  total_positions : ℕ
  mean_return : ℝ
  median_return : ℝ
  std_return : ℝ
  min_return : ℝ
  max_return : ℝ
  max_drawdown : ℝ
  max_single_loss : ℝ
  sharpe : ℝ
  sortino : ℝ
  win_rate : ℝ
  winners : ℕ
  losers : ℕ
  profit_factor : MetricVal
  avg_win : ℝ
  avg_win_dollars : ℝ
  avg_loss : ℝ
  avg_loss_dollars : ℝ
  expectancy : ℝ
  recovery_factor : MetricVal
  calmar : ℝ
  max_consecutive_wins : ℕ
  max_consecutive_losses : ℕ

namespace RecommendationTracker

/-- `RecommendationTracker.calculate_risk_metrics`
(src/recommendation_tracker.py lines 345-488). `none` models the empty dict
returned for an empty summary. Float arithmetic is exact-real (degenerate
divisions are junk 0 where numpy yields NaN); the source's explicit
`float('inf')` results are `MetricVal.inf`. -/
noncomputable def calculate_risk_metrics (rows : List PerfRow) :
    Option JsonMetrics :=
  if rows.isEmpty then none
  else
    let returns := rows.map (·.pnl_pct)
    let mean_return := listMean returns
    let std_return := if returns.length > 1 then stdSample returns else 0
    let sorted := rows.mergeSort fun a b => decide (a.rec_date ≤ b.rec_date)
    let max_drawdown := maxDrawdown (sorted.map (·.pnl_pct))
    let neg_pct := returns.filter fun r => decide (r < 0)
    let max_single_loss := if neg_pct.length > 0 then |listMin neg_pct| else 0
    let avg_days_held := listMean (rows.map (·.days_held))
    let sharpe :=
      if avg_days_held > 0 ∧ std_return > 0 then
        (mean_return * (365 / avg_days_held) - 4)
          / (std_return * Real.sqrt (365 / avg_days_held))
      else 0
    let sortino :=
      if neg_pct.length > 1 then
        let ann_down :=
          if avg_days_held > 0 then
            stdSample neg_pct * Real.sqrt (365 / avg_days_held)
          else 0
        if ann_down > 0 then
          ((if avg_days_held > 0 then mean_return * (365 / avg_days_held)
            else 0) - 4) / ann_down
        else 0
      else 0
    let winners := (returns.filter fun r => decide (0 < r)).length
    let losers := neg_pct.length
    let win_rate :=
      if rows.length > 0 then (winners : ℝ) / rows.length * 100 else 0
    let dollars := rows.map (·.pnl)
    let gross_profit := (dollars.filter fun x => decide (0 < x)).sum
    let gross_loss := |(dollars.filter fun x => decide (x < 0)).sum|
    let profit_factor : MetricVal :=
      if gross_loss > 0 then .val (gross_profit / gross_loss) else .inf
    let avg_win := if winners > 0 then listMean (returns.filter fun r => decide (0 < r)) else 0
    let avg_win_dollars := if winners > 0 then listMean (dollars.filter fun x => decide (0 < x)) else 0
    let avg_loss := if losers > 0 then |listMean neg_pct| else 0
    let avg_loss_dollars := if losers > 0 then |listMean (dollars.filter fun x => decide (x < 0))| else 0
    let expectancy := listMean dollars
    let total_pnl := dollars.sum
    let total_cost_mean := listMean (rows.map (·.total_cost))
    let recovery_factor : MetricVal :=
      if max_single_loss > 0 ∧ total_cost_mean > 0 then
        .val (total_pnl / (max_single_loss * total_cost_mean / 100))
      else .inf
    let calmar :=
      if avg_days_held > 0 ∧ max_drawdown > 0 then
        (mean_return * (365 / avg_days_held)) / max_drawdown
      else 0
    let streaks := streakScan (sorted.map fun r => decide (0 < r.pnl_pct))
    some
      { total_positions := rows.length,
        mean_return := mean_return,
        median_return := listMedian returns,
        std_return := std_return,
        min_return := listMin returns,
        max_return := listMax returns,
        max_drawdown := max_drawdown,
        max_single_loss := max_single_loss,
        sharpe := sharpe,
        sortino := sortino,
        win_rate := win_rate,
        winners := winners,
        losers := losers,
        profit_factor := profit_factor,
        avg_win := avg_win,
        avg_win_dollars := avg_win_dollars,
        avg_loss := avg_loss,
        avg_loss_dollars := avg_loss_dollars,
        expectancy := expectancy,
        recovery_factor := recovery_factor,
        calmar := calmar,
        max_consecutive_wins := streaks.1,
        max_consecutive_losses := streaks.2 }

end RecommendationTracker

/-- The nine-key metrics dict of the SQLite tracker's
`calculate_risk_metrics` (src/recommendation_tracker_db.py lines 461-537). -/
structure DbMetrics where
  sharpe : ℝ
  sortino : ℝ
  max_drawdown : ℝ
  calmar : ℝ
  profit_factor : ℝ
  avg_win : ℝ
  avg_loss : ℝ
  std_return : ℝ
  expectancy : ℝ

/-- The all-zero sentinel dict returned for an empty or all-null summary
(src/recommendation_tracker_db.py lines 466-476 and 481-491). -/
def dbZeroMetrics : DbMetrics := ⟨0, 0, 0, 0, 0, 0, 0, 0, 0⟩

namespace RecommendationTrackerDB

/-- `RecommendationTrackerDB.calculate_risk_metrics`
(src/recommendation_tracker_db.py lines 461-537), as a function of the
cleaned `P&L_%` series (`replace([inf,-inf], nan).dropna()` of the summary's
column, which `get_performance_summary` orders by recommendation date
DESCENDING). Float arithmetic is exact-real: the sample deviations of
one-element series, NaN in pandas, are junk 0 here. -/
noncomputable def calculate_risk_metrics (returnsDesc : List ℝ) : DbMetrics :=
  if returnsDesc.isEmpty then dbZeroMetrics
  else
    let returns := returnsDesc
    let wins := returns.filter fun r => decide (0 < r)
    let losses := returns.filter fun r => decide (r < 0)
    let avg_return := listMean returns
    let std_return := stdSample returns
    let downside_std := if losses.length > 0 then stdSample losses else 1/10000
    let sharpe :=
      if std_return > 0 then (avg_return / std_return) * Real.sqrt (252/21)
      else 0
    let sortino :=
      if downside_std > 0 then (avg_return / downside_std) * Real.sqrt (252/21)
      else 0
    let max_drawdown := maxDrawdown returns
    let calmar := if ¬ (max_drawdown = 0) then avg_return / |max_drawdown| else 0
    let total_wins := if wins.length > 0 then wins.sum else 0
    let total_losses := if losses.length > 0 then |losses.sum| else 1/10000
    let profit_factor := if total_losses > 0 then total_wins / total_losses else 0
    let win_rate :=
      if returns.length > 0 then (wins.length : ℝ) / returns.length else 0
    let avg_win := if wins.length > 0 then listMean wins else 0
    let avg_loss := if losses.length > 0 then |listMean losses| else 0
    let expectancy := win_rate * avg_win - (1 - win_rate) * avg_loss
    { sharpe := sharpe,
      sortino := sortino,
      max_drawdown := max_drawdown,
      calmar := calmar,
      profit_factor := profit_factor,
      avg_win := avg_win,
      avg_loss := avg_loss,
      std_return := std_return,
      expectancy := expectancy }

end RecommendationTrackerDB

lemma foldl_min_le (l : List ℝ) (a : ℝ) : l.foldl min a ≤ a := by
  induction l generalizing a with
  | nil => simp
  | cons x xs ih => exact le_trans (ih (min a x)) (min_le_left a x)

lemma listMin_map_mul (c : ℝ) (hc : 0 ≤ c) (l : List ℝ) :
    listMin (l.map fun x => x * c) = listMin l * c := by
  cases l with
  | nil => simp [listMin]
  | cons x xs =>
      simp only [List.map_cons, listMin]
      induction xs generalizing x with
      | nil => simp
      | cons y ys ih =>
          simp only [List.map_cons, List.foldl_cons]
          rw [show min (x * c) (y * c) = min x y * c by
            rcases le_total x y with hxy | hxy
            · rw [min_eq_left hxy,
                min_eq_left (mul_le_mul_of_nonneg_right hxy hc)]
            · rw [min_eq_right hxy,
                min_eq_right (mul_le_mul_of_nonneg_right hxy hc)]]
          exact ih (min x y)

lemma drawdownSeries_head (r : ℝ) (rs : List ℝ) :
    ∃ xs, drawdownSeries (r :: rs) = 0 :: xs := by
  cases rs with
  | nil =>
      refine ⟨[], ?_⟩
      unfold drawdownSeries cumCurve expandingMax
      simp
  | cons y ys =>
      unfold drawdownSeries cumCurve expandingMax
      simp only [List.map_cons, List.scanl_cons, List.singleton_append,
        List.tail_cons, List.zipWith_cons_cons, sub_self, zero_div]
      exact ⟨_, rfl⟩

lemma json_drawdown_eq_spec (rs : List ℝ) :
    RecommendationTracker.maxDrawdown rs = specMaxDrawdown rs := by
  unfold RecommendationTracker.maxDrawdown specMaxDrawdown
  split
  · rfl
  · rw [listMin_map_mul 100 (by norm_num), abs_mul]
    norm_num

lemma db_drawdown_nonpos (l : List ℝ) (h : l ≠ []) :
    RecommendationTrackerDB.maxDrawdown l ≤ 0 := by
  unfold RecommendationTrackerDB.maxDrawdown
  obtain ⟨r, rs', rfl⟩ := List.exists_cons_of_ne_nil h
  obtain ⟨xs, hdd⟩ := drawdownSeries_head r rs'
  rw [hdd]
  have hmin : listMin (0 :: xs) ≤ 0 := foldl_min_le xs 0
  have := mul_le_mul_of_nonneg_right hmin (by norm_num : (0:ℝ) ≤ 100)
  simpa using this

/-- C6 (amended). Max drawdown: the JSON tracker computes exactly the spec's
formula over the time-ordered return series — the cumulative curve, the
running maximum, the most negative drawdown reported as a non-negative
percentage magnitude. The SQLite tracker applies the same curve construction
to the series in the reverse (date-descending) order its summary query
delivers and reports the signed minimum times 100, a non-positive value — so
the two implementations do not agree in general (see the counterexample). -/
theorem max_drawdown_amended (rs : List ℝ) (h : rs ≠ []) :
    RecommendationTracker.maxDrawdown rs = specMaxDrawdown rs ∧
    0 ≤ RecommendationTracker.maxDrawdown rs ∧
    RecommendationTrackerDB.maxDrawdown rs.reverse ≤ 0 := by
  refine ⟨json_drawdown_eq_spec rs, ?_, ?_⟩
  · rw [json_drawdown_eq_spec rs]
    unfold specMaxDrawdown
    split
    · exact le_refl 0
    · positivity
  · exact db_drawdown_nonpos _ (by simpa using h)

/-- Counterexample for C6: on the return history `[+10%, -50%]` (time order),
the JSON tracker reports a max drawdown of 50 while the SQLite tracker —
processing the same history in its date-descending order — reports 0; the two
implementations do not yield the same value. -/
theorem max_drawdown_counterexample :
    RecommendationTracker.maxDrawdown [10, -50] = 50 ∧
    RecommendationTrackerDB.maxDrawdown (([10, -50] : List ℝ).reverse) = 0 ∧
    ¬ (RecommendationTrackerDB.maxDrawdown (([10, -50] : List ℝ).reverse)
        = RecommendationTracker.maxDrawdown [10, -50]) := by
  have h1 : RecommendationTracker.maxDrawdown [10, -50] = 50 := by
    unfold RecommendationTracker.maxDrawdown
    rw [if_neg (by simp : ¬ (([10, -50] : List ℝ) = []))]
    unfold drawdownSeries cumCurve expandingMax expandingMaxFrom listMin
    norm_num [List.scanl, max_def, abs_of_nonpos, min_def]
  have h2 : RecommendationTrackerDB.maxDrawdown (([10, -50] : List ℝ).reverse)
      = 0 := by
    unfold RecommendationTrackerDB.maxDrawdown drawdownSeries cumCurve
      expandingMax expandingMaxFrom listMin
    norm_num [List.scanl, max_def, min_def]
  refine ⟨h1, h2, ?_⟩
  rw [h1, h2]
  norm_num

/-- Witness for C6 (amended): on the concrete history `[+10%, -50%]` the JSON
tracker matches the spec formula and the SQLite tracker's value is
non-positive. -/
theorem max_drawdown_amended_witness :
    RecommendationTracker.maxDrawdown [10, -50] = specMaxDrawdown [10, -50] ∧
    RecommendationTrackerDB.maxDrawdown (([10, -50] : List ℝ).reverse) ≤ 0 := by
  have h := max_drawdown_amended [10, -50] (List.cons_ne_nil _ _)
  exact ⟨h.1, h.2.2⟩

/-- Counterexample for C3: on a history with one winning trade and no losing
trades, the JSON tracker's `calculate_risk_metrics` returns the
`float('inf')` sentinel for both `profit_factor` and `recovery_factor` — an
infinity handed directly to the caller (the ∞→null normalization happens only
in the web layer, src/web_app.py lines 210-226). -/
theorem risk_metrics_inf_counterexample :
    (RecommendationTracker.calculate_risk_metrics
        [⟨100, 2821/100, 550, 30, 1950⟩]).map
      (fun m => (m.profit_factor, m.recovery_factor)) = some (.inf, .inf) := by
  unfold RecommendationTracker.calculate_risk_metrics
  rw [if_neg (by simp :
    ¬ (([(⟨100, 2821/100, 550, 30, 1950⟩ : PerfRow)]).isEmpty = true))]
  norm_num [List.filter_cons, List.filter_nil, Bool.cond_decide]

/-- C3 (amended). Degenerate-input analytics: on an empty history the JSON
tracker returns its empty-dict sentinel (`none`) and the SQLite tracker its
all-zero dict; but the JSON tracker's `calculate_risk_metrics` hands the
caller `float('inf')` as `profit_factor` whenever the history contains no
losing dollar P&L — the ∞→null normalization lives in the web layer, not in
this call. -/
theorem risk_metrics_degenerate_amended :
    RecommendationTracker.calculate_risk_metrics [] = none ∧
    RecommendationTrackerDB.calculate_risk_metrics [] = dbZeroMetrics ∧
    (∀ rows : List PerfRow, rows ≠ [] → (∀ r ∈ rows, 0 ≤ r.pnl) →
      (RecommendationTracker.calculate_risk_metrics rows).map
        (fun m => m.profit_factor) = some .inf) := by
  refine ⟨rfl, rfl, ?_⟩
  intro rows hne hpos
  unfold RecommendationTracker.calculate_risk_metrics
  rw [if_neg (by simpa [List.isEmpty_iff] using hne)]
  have hfilter : ((rows.map (·.pnl)).filter fun x => decide (x < 0)) = [] := by
    rw [List.filter_eq_nil_iff]
    intro x hx
    rw [List.mem_map] at hx
    obtain ⟨r, hr, he⟩ := hx
    simp only [decide_eq_true_eq, not_lt]
    rw [← he]
    exact hpos r hr
  simp [hfilter]

/-- Witness for C3 (amended): the one-winner history again, through the
amended theorem. -/
theorem risk_metrics_degenerate_amended_witness :
    (RecommendationTracker.calculate_risk_metrics
        [⟨100, 2821/100, 550, 30, 1950⟩]).map (fun m => m.profit_factor)
      = some .inf := by
  refine risk_metrics_degenerate_amended.2.2 [⟨100, 2821/100, 550, 30, 1950⟩]
    (by simp) ?_
  intro r hr
  rw [List.mem_singleton] at hr
  subst hr
  norm_num

end DITM
